import Mathlib

/-!
Verification development for the toyorm PostgreSQL dialect
(`dialect_postgres.go`): a shallow embedding of the search-expression
compiler (`SearchExec`), the clause assembler (`ConditionExec`), the DDL
and DML statement builders (`CreateTable`, `insertExec`, `InsertExec`,
`ReplaceExec`) and the insert executor's error routing (`InsertExecutor`,
`RawResult.LastInsertId`), together with theorems about their behaviour.

Argument values (Go `interface{}`) are modelled by `Int`; the compiler
treats them opaquely, so any value universe is faithful.  Go maps
(`Attrs`, `GetIndexMap`, `GetUniqueIndexMap`, the `foreign` parameter)
are modelled as association lists: the list order stands for the map's
iteration order.
-/

/-- Modelled from the spec: `ExecValue` is a compiled fragment — SQL text
plus a positional argument list (`Source()` / `Args()`). -/
structure ExecValue where
  source : String
  args : List Int
deriving DecidableEq, Repr

/-- Modelled from the spec: the zero fragment `QToSExec{}` (empty text, no
arguments). -/
def ExecValue.empty : ExecValue := { source := "", args := [] }

/-- Modelled from the spec: `Append(text, args...)` concatenates SQL text
and concatenates the argument lists in the same order. -/
def ExecValue.append (e : ExecValue) (s : String) (a : List Int) : ExecValue :=
  { source := e.source ++ s, args := e.args ++ a }

/-- Modelled from the spec: one node of a `SearchList`.  Combinator nodes
(`And`/`Or`/`Not`/`Ignore`) carry no operand; comparison leaves carry the
column name (`Val.Column()`) and the operand value(s)
(`Val.Value().Interface()`).  `Between`/`NotBetween` carry the 2-element
pair the Go code reads via `vv.Index(0)`/`vv.Index(1)`; `In`/`NotIn`
carry the ordered sequence the Go code iterates over. -/
inductive ExprNode where
  | and
  | or
  | not
  | ignore
  | equal (col : String) (v : Int)
  | notEqual (col : String) (v : Int)
  | greater (col : String) (v : Int)
  | greaterEqual (col : String) (v : Int)
  | less (col : String) (v : Int)
  | lessEqual (col : String) (v : Int)
  | between (col : String) (v0 v1 : Int)
  | notBetween (col : String) (v0 v1 : Int)
  | inList (col : String) (vs : List Int)
  | notIn (col : String) (vs : List Int)
  | like (col : String) (v : Int)
  | notLike (col : String) (v : Int)
  | null (col : String)
  | notNull (col : String)
deriving DecidableEq, Repr

/-- Modelled from the spec: a `SearchList` is an ordered sequence of
nodes in postfix order. -/
abbrev SearchList := List ExprNode

/-- How `SearchExec` fails: `panic(ErrInvalidSearchTree)` on a pop
underflow, or the runtime index-out-of-range panic of `return stack[0]`
on an empty final stack. -/
inductive SearchErr where
  | invalidSearchTree
  | indexOutOfRange
deriving DecidableEq, Repr

/-- Go `strings.Repeat s n`: `n` concatenated copies of `s`. -/
def strRepeat (s : String) : Nat → String
  | 0 => ""
  | n + 1 => s ++ strRepeat s n

/-- Go `strings.TrimSuffix s suffix`: `s` without the provided trailing
suffix string; unchanged if `s` does not end in it. -/
def trimSuffix (s su : String) : String :=
  if s.data.reverse.take su.data.length = su.data.reverse then
    String.mk (s.data.reverse.drop su.data.length).reverse
  else s

/-- `strings.TrimSuffix(strings.Repeat("?,", n), ",")` from the
`ExprIn`/`ExprNotIn` cases of `SearchExec`. -/
def questionMarks (n : Nat) : String := trimSuffix (strRepeat "?," n) ","

/-- The loop body of `SearchExec`: process the remaining nodes against
the current evaluation stack.  The stack's head is the Go slice's last
element (the top).  Each case mirrors a `case` of the Go `switch`:
`ExprAnd`/`ExprOr` pop `last1` (top) and `last2` and render
`"last2 AND last1"` resp. `"(last2 OR last1)"` with argument lists
`last2.Args() ++ last1.Args()`; `ExprNot` pops one; `ExprIgnore` skips;
every leaf pushes its rendered fragment. -/
def searchLoop : SearchList → List ExecValue → Except SearchErr (List ExecValue)
  | [], stack => .ok stack
  | .and :: rest, stack =>
    match stack with
    | last1 :: last2 :: st =>
      searchLoop rest
        ({ source := last2.source ++ " AND " ++ last1.source,
           args := last2.args ++ last1.args } :: st)
    | _ => .error .invalidSearchTree
  | .or :: rest, stack =>
    match stack with
    | last1 :: last2 :: st =>
      searchLoop rest
        ({ source := "(" ++ last2.source ++ " OR " ++ last1.source ++ ")",
           args := last2.args ++ last1.args } :: st)
    | _ => .error .invalidSearchTree
  | .not :: rest, stack =>
    match stack with
    | last :: st =>
      searchLoop rest ({ source := "NOT(" ++ last.source ++ ")", args := last.args } :: st)
    | _ => .error .invalidSearchTree
  | .ignore :: rest, stack => searchLoop rest stack
  | .equal col v :: rest, stack =>
    searchLoop rest ({ source := col ++ " = ?", args := [v] } :: stack)
  | .notEqual col v :: rest, stack =>
    searchLoop rest ({ source := col ++ " <> ?", args := [v] } :: stack)
  | .greater col v :: rest, stack =>
    searchLoop rest ({ source := col ++ " > ?", args := [v] } :: stack)
  | .greaterEqual col v :: rest, stack =>
    searchLoop rest ({ source := col ++ " >= ?", args := [v] } :: stack)
  | .less col v :: rest, stack =>
    searchLoop rest ({ source := col ++ " < ?", args := [v] } :: stack)
  | .lessEqual col v :: rest, stack =>
    searchLoop rest ({ source := col ++ " <= ?", args := [v] } :: stack)
  | .between col v0 v1 :: rest, stack =>
    searchLoop rest ({ source := col ++ " BETWEEN ? AND ?", args := [v0, v1] } :: stack)
  | .notBetween col v0 v1 :: rest, stack =>
    searchLoop rest ({ source := col ++ " NOT BETWEEN ? AND ?", args := [v0, v1] } :: stack)
  | .inList col vs :: rest, stack =>
    searchLoop rest
      ({ source := col ++ " IN (" ++ questionMarks vs.length ++ ")", args := vs } :: stack)
  | .notIn col vs :: rest, stack =>
    searchLoop rest
      ({ source := col ++ " NOT IN (" ++ questionMarks vs.length ++ ")", args := vs } :: stack)
  | .like col v :: rest, stack =>
    searchLoop rest ({ source := col ++ " LIKE ?", args := [v] } :: stack)
  | .notLike col v :: rest, stack =>
    searchLoop rest ({ source := col ++ " NOT LIKE ?", args := [v] } :: stack)
  | .null col :: rest, stack =>
    searchLoop rest ({ source := col ++ " IS NULL", args := [] } :: stack)
  | .notNull col :: rest, stack =>
    searchLoop rest ({ source := col ++ " IS NOT NULL", args := [] } :: stack)

/-- `SearchExec` of the PostgreSQL dialect: run the stack evaluator over
the list and `return stack[0]` — the bottom (first-pushed) remaining
fragment, which is the head-as-top list's last element; an empty final
stack is the Go runtime's index-out-of-range panic. -/
def SearchExec (s : SearchList) : Except SearchErr ExecValue :=
  match searchLoop s [] with
  | .error e => .error e
  | .ok stack =>
    match stack.getLast? with
    | some e => .ok e
    | none => .error .indexOutOfRange

/-- `ConditionExec` of the PostgreSQL dialect: start from the zero
fragment; if the search list is non-empty, run `SearchExec` (a panic
propagates) and append `" WHERE "` plus its text and arguments; then
append `" LIMIT %d"` when `limit != 0`, `" OFFSET %d"` when
`offset != 0`, `" ORDER BY "` with the comma-joined columns when
`orderBy` is non-empty, and `" GROUP BY "` likewise for `groupBy`.
Columns are modelled by their `Column()` string. -/
def ConditionExec (search : SearchList) (limit offset : Int)
    (orderBy groupBy : List String) : Except SearchErr ExecValue :=
  let start : Except SearchErr ExecValue :=
    if search.length > 0 then
      match SearchExec search with
      | .error e => .error e
      | .ok searchExec =>
        .ok (ExecValue.empty.append (" WHERE " ++ searchExec.source) searchExec.args)
    else .ok ExecValue.empty
  match start with
  | .error e => .error e
  | .ok e0 =>
    let e1 := if limit ≠ 0 then e0.append (" LIMIT " ++ toString limit) [] else e0
    let e2 := if offset ≠ 0 then e1.append (" OFFSET " ++ toString offset) [] else e1
    let e3 :=
      if orderBy.length > 0 then
        e2.append (" ORDER BY " ++ String.intercalate "," orderBy) []
      else e2
    let e4 :=
      if groupBy.length > 0 then
        e3.append (" GROUP BY " ++ String.intercalate "," groupBy) []
      else e3
    .ok e4

/-- Modelled from the spec: a table field as the dialect reads it —
field name, SQL column name (`Column()`), SQL type (`SqlType()`), the
auto-increment flag (`AutoIncrement()`) and the attribute map
(`Attrs()`, modelled as an association list). -/
structure SqlField where
  name : String
  column : String
  sqlType : String
  autoIncrement : Bool
  attrs : List (String × String)
deriving DecidableEq, Repr

instance : Inhabited SqlField := ⟨⟨"", "", "", false, []⟩⟩

/-- Modelled from the spec: a foreign-key binding — the referenced
model's name (`key.Model.Name`) and the referenced field's column
(`key.Field.Column()`). -/
structure ForeignKey where
  modelName : String
  fieldColumn : String
deriving DecidableEq, Repr

/-- Modelled from the spec: static table metadata — name, ordered SQL
field list (`GetSqlFields()`), primary-key fields in declared order
(`GetPrimary()`), and the index / unique-index groupings
(`GetIndexMap()` / `GetUniqueIndexMap()`, modelled as association
lists). -/
structure Model where
  name : String
  sqlFields : List SqlField
  primary : List SqlField
  indexMap : List (String × List SqlField)
  uniqueIndexMap : List (String × List SqlField)
deriving DecidableEq, Repr

/-- Modelled from the spec: `model.GetFieldWithName(name)` looks a field
up by its field name. -/
def Model.GetFieldWithName (m : Model) (n : String) : SqlField :=
  (m.sqlFields.find? (fun f => f.name == n)).getD default

/-- Modelled from the spec: `model.GetOnePrimary()` is the first
primary-key field. -/
def Model.GetOnePrimary (m : Model) : SqlField := m.primary.headD default

/-- One column definition of `CreateTable`: `"col SERIAL"` for an
auto-increment field, otherwise `"col TYPE"`, followed by each attribute
as `" k"` (empty value) or `" k=v"`. -/
def fieldDef (f : SqlField) : String :=
  let s := if f.autoIncrement then f.column ++ " SERIAL" else f.column ++ " " ++ f.sqlType
  f.attrs.foldl (fun s kv => if kv.2 = "" then s ++ " " ++ kv.1 else s ++ " " ++ kv.1 ++ "=" ++ kv.2) s

/-- One `FOREIGN KEY` clause of `CreateTable`. -/
def foreignDef (m : Model) (nk : String × ForeignKey) : String :=
  "FOREIGN KEY (" ++ (m.GetFieldWithName nk.1).column ++ ") REFERENCES \"" ++
    nk.2.modelName ++ "\"(" ++ nk.2.fieldColumn ++ ")"

/-- One `CREATE INDEX` statement of `CreateTable`. -/
def indexDef (m : Model) (kv : String × List SqlField) : String :=
  "CREATE INDEX " ++ kv.1 ++ " ON \"" ++ m.name ++ "\"(" ++
    String.intercalate "," (kv.2.map SqlField.column) ++ ")"

/-- One `CREATE UNIQUE INDEX` statement of `CreateTable`. -/
def uniqueIndexDef (m : Model) (kv : String × List SqlField) : String :=
  "CREATE UNIQUE INDEX " ++ kv.1 ++ " ON \"" ++ m.name ++ "\"(" ++
    String.intercalate "," (kv.2.map SqlField.column) ++ ")"

/-- `CreateTable` of the PostgreSQL dialect: build `strList` from the
column definitions, then the `PRIMARY KEY` clause over the primary
columns, then one `FOREIGN KEY` clause per entry of `foreign`; emit a
single `CREATE TABLE "name" (...)` statement, then every `CREATE INDEX`
statement, then every `CREATE UNIQUE INDEX` statement. -/
def CreateTable (m : Model) (foreign : List (String × ForeignKey)) : List ExecValue :=
  let strList := m.sqlFields.map fieldDef
  let strList := strList ++
    ["PRIMARY KEY(" ++ String.intercalate "," (m.primary.map SqlField.column) ++ ")"]
  let strList := strList ++ foreign.map (foreignDef m)
  let sqlStr := "CREATE TABLE \"" ++ m.name ++ "\" (" ++ String.intercalate "," strList ++ ")"
  let execlist := [({ source := sqlStr, args := [] } : ExecValue)]
  let indexStrList := m.indexMap.map (indexDef m)
  let uniqueIndexStrList := m.uniqueIndexMap.map (uniqueIndexDef m)
  let execlist := execlist ++ indexStrList.map (fun s => { source := s, args := [] })
  let execlist := execlist ++ uniqueIndexStrList.map (fun s => { source := s, args := [] })
  execlist

/-- Modelled from the spec: a `ColumnValue` pairs a column name with the
runtime value to bind (`Column()` / `Value().Interface()`). -/
structure ColumnValue where
  column : String
  value : Int
deriving DecidableEq, Repr

/-- `insertExec` of the PostgreSQL dialect: comma-join the column names
and one `?` per column value, collect the values as arguments, and
render `INSERT INTO "name"(cols) VALUES(qs)`. -/
def insertExec (m : Model) (columnValues : List ColumnValue) : ExecValue :=
  let fieldStr := String.intercalate "," (columnValues.map ColumnValue.column)
  let qStr := String.intercalate "," (columnValues.map (fun _ => "?"))
  let args := columnValues.map ColumnValue.value
  ExecValue.empty.append
    ("INSERT INTO \"" ++ m.name ++ "\"(" ++ fieldStr ++ ") VALUES(" ++ qStr ++ ")") args

/-- `InsertExec` of the PostgreSQL dialect: the plain insert, plus
`" RETURNING <primary column>"` when the model has exactly one primary
key and it is auto-increment. -/
def InsertExec (m : Model) (columnValues : List ColumnValue) : ExecValue :=
  let exec := insertExec m columnValues
  if m.primary.length == 1 && m.GetOnePrimary.autoIncrement then
    exec.append (" RETURNING " ++ m.GetOnePrimary.column) []
  else exec

/-- `ReplaceExec` of the PostgreSQL dialect: the plain insert, plus
`" ON CONFLICT(<primary columns>) DO UPDATE SET col = Excluded.col,…"`
with no additional arguments. -/
def ReplaceExec (m : Model) (columnValues : List ColumnValue) : ExecValue :=
  let exec := insertExec m columnValues
  let primaryKeyNames := m.primary.map SqlField.column
  let recordList := columnValues.map (fun r => r.column ++ " = Excluded." ++ r.column)
  exec.append
    (" ON CONFLICT(" ++ String.intercalate "," primaryKeyNames ++ ") DO UPDATE SET " ++
      String.intercalate "," recordList) []

/-- Modelled from the spec: a scan error from the driver — either
`sql.ErrNoRows` or any other error. -/
inductive ScanErr where
  | noRows
  | other (msg : String)
deriving DecidableEq, Repr

/-- `RawResult` of the PostgreSQL dialect: the scanned id and a stored
error, zero-valued as `{0, nil}`. -/
structure RawResult where
  ID : Int
  Err : Option ScanErr
deriving DecidableEq, Repr

/-- `RawResult.LastInsertId` returns the stored id and the stored
error. -/
def RawResult.LastInsertId (t : RawResult) : Int × Option ScanErr := (t.ID, t.Err)

/-- `InsertExecutor` of the PostgreSQL dialect, modelled as a function of
the outcome of `db.QueryRow(query, args...).Scan(&result.ID)` (success
with the scanned id, or a scan error).  If the scan error is
`sql.ErrNoRows` it is stored in `result.Err`; any other scan outcome
(including nil) becomes the returned top-level error.  The result pair is
(`result`, top-level error); the debug printer is effect-only and
omitted. -/
def InsertExecutor (scanOutcome : Except ScanErr Int) : RawResult × Option ScanErr :=
  match scanOutcome with
  | .ok v => ({ ID := v, Err := none }, none)
  | .error scanErr =>
    if scanErr = .noRows then ({ ID := 0, Err := some scanErr }, none)
    else ({ ID := 0, Err := none }, some scanErr)

deriving instance DecidableEq for Except

/-- Spec-side rendering of the `In`/`NotIn` placeholder list: `n`
question marks joined by commas. -/
def joinQ : Nat → String
  | 0 => ""
  | 1 => "?"
  | n + 2 => "?," ++ joinQ (n + 1)

/-- Spec-side underflow predicate: scanning the list left to right with
a stack of the given size, some `And`/`Or` node finds fewer than 2
fragments, or some `Not` node finds fewer than 1. -/
def underflows : SearchList → Nat → Bool
  | [], _ => false
  | .and :: rest, k + 2 => underflows rest (k + 1)
  | .and :: _, _ => true
  | .or :: rest, k + 2 => underflows rest (k + 1)
  | .or :: _, _ => true
  | .not :: rest, k + 1 => underflows rest (k + 1)
  | .not :: _, _ => true
  | .ignore :: rest, k => underflows rest k
  | _ :: rest, k => underflows rest (k + 1)

theorem strRepeat_q_succ (n : Nat) : strRepeat "?," (n + 1) = joinQ (n + 1) ++ "," := by
  induction n with
  | zero => decide
  | succ n ih =>
    show "?," ++ strRepeat "?," (n + 1) = ("?," ++ joinQ (n + 1)) ++ ","
    rw [ih, String.append_assoc]

theorem trimSuffix_append_comma (x : String) : trimSuffix (x ++ ",") "," = x := by
  simp [trimSuffix, String.data_append]

theorem questionMarks_eq_joinQ (n : Nat) : questionMarks n = joinQ n := by
  cases n with
  | zero => decide
  | succ n => rw [questionMarks, strRepeat_q_succ, trimSuffix_append_comma]

theorem searchLoop_invalidTree_iff (s : SearchList) : ∀ stack : List ExecValue,
    (searchLoop s stack = .error .invalidSearchTree ↔ underflows s stack.length = true) := by
  induction s with
  | nil => intro stack; simp [searchLoop, underflows]
  | cons n rest ih =>
    intro stack
    cases n <;>
      rcases stack with _ | ⟨a, _ | ⟨b, st⟩⟩ <;>
      simp [searchLoop, underflows, ih]

theorem searchExec_invalidTree_iff (s : SearchList) :
    SearchExec s = .error .invalidSearchTree ↔ underflows s 0 = true := by
  have h := searchLoop_invalidTree_iff s []
  simp only [List.length_nil] at h
  unfold SearchExec
  rcases hl : searchLoop s [] with e | stack
  · rw [hl] at h
    cases e <;> simp_all
  · rw [hl] at h
    cases hg : stack.getLast? <;> simp_all

/-- Claim C1 counterexample: the SearchList `[a = 1, b = 2]` (two leaves,
no combinator) leaves two fragments on the final evaluation stack, which
the claim says must fail with `InvalidExpressionTree`; instead
`SearchExec` succeeds, silently returning the first-pushed fragment. -/
theorem searchExec_surplus_stack_succeeds :
    SearchExec [.equal "a" 1, .equal "b" 2] = .ok { source := "a = ?", args := [1] } ∧
    SearchExec [.equal "a" 1, .equal "b" 2] ≠ .error .invalidSearchTree := by
  constructor <;> decide

/-- Claim C1 (amended): `SearchExec` fails with `InvalidExpressionTree`
exactly when the postfix evaluation stack underflows at a pop (fewer than
2 fragments before an `And`/`Or` node, fewer than 1 before a `Not`); a
final stack holding more than one fragment is NOT detected — the
first-pushed fragment is returned successfully — and an empty final
stack (no nodes, or only `Ignore` nodes) fails with an index-out-of-range
panic, not with `InvalidExpressionTree`. -/
theorem searchExec_failure_modes :
    (∀ s : SearchList, SearchExec s = .error .invalidSearchTree ↔ underflows s 0 = true)
    ∧ SearchExec [] = .error .indexOutOfRange
    ∧ SearchExec [.ignore] = .error .indexOutOfRange
    ∧ SearchExec [.equal "b" 2, .equal "c" 3] = .ok { source := "b = ?", args := [2] } :=
  ⟨searchExec_invalidTree_iff, by decide, by decide, by decide⟩

/-- Claim C2: with at least two fragments on the evaluation stack, an
`And` node pops the top (`right`) and the second-to-top (`left`) and
renders `"<left> AND <right>"` with no added parentheses, while an `Or`
node with the same pop order renders `"(<left> OR <right>)"`, always
parenthesized; both concatenate the argument lists left-then-right, so
`A And (B Or C)` — the postfix list `[A, B, C, Or, And]` — compiles to
`"a = ? AND (b = ? OR c = ?)"` with arguments in A, B, C order. -/
theorem and_or_pop_order_and_parens :
    (∀ (rest : SearchList) (r l : ExecValue) (st : List ExecValue),
      searchLoop (.and :: rest) (r :: l :: st) =
        searchLoop rest
          ({ source := l.source ++ " AND " ++ r.source, args := l.args ++ r.args } :: st))
    ∧ (∀ (rest : SearchList) (r l : ExecValue) (st : List ExecValue),
      searchLoop (.or :: rest) (r :: l :: st) =
        searchLoop rest
          ({ source := "(" ++ l.source ++ " OR " ++ r.source ++ ")",
             args := l.args ++ r.args } :: st))
    ∧ (∀ va vb vc : Int,
      SearchExec [.equal "a" va, .equal "b" vb, .equal "c" vc, .or, .and] =
        .ok { source := "a = ? AND (b = ? OR c = ?)", args := [va, vb, vc] }) :=
  ⟨fun _ _ _ _ => rfl, fun _ _ _ _ => rfl, fun _ _ _ => rfl⟩

/-- Claim C3: an `In` (resp. `NotIn`) leaf over a sequence of length
`N ≥ 1` renders the column followed by `IN` (resp. `NOT IN`) with exactly
`N` question-mark placeholders joined by commas, and its argument list is
exactly the sequence's elements in iteration order. -/
theorem in_notIn_render (col : String) (vs : List Int) (_h : 1 ≤ vs.length) :
    SearchExec [.inList col vs] =
      .ok { source := col ++ " IN (" ++ joinQ vs.length ++ ")", args := vs } ∧
    SearchExec [.notIn col vs] =
      .ok { source := col ++ " NOT IN (" ++ joinQ vs.length ++ ")", args := vs } := by
  constructor <;> simp [SearchExec, searchLoop, questionMarks_eq_joinQ]

/-- Claim C3 witness: the sequence `[1,2,3]` has length at least 1 and
compiles to `"col IN (?,?,?)"` with arguments `[1,2,3]`. -/
theorem in_notIn_render_witness :
    1 ≤ ([1, 2, 3] : List Int).length ∧
    SearchExec [.inList "col" [1, 2, 3]] =
      .ok { source := "col IN (?,?,?)", args := [1, 2, 3] } := by
  have h := (in_notIn_render "col" [1, 2, 3] (by decide)).1
  exact ⟨by decide, by rw [h]; decide⟩

/-- Claim C4 counterexample: an `In` leaf over the empty sequence is
neither rejected nor turned into an always-false/true fragment — the
compiler silently emits the invalid SQL `col IN ()` (and `NOT IN`
likewise) with an empty argument list. -/
theorem empty_in_emits_invalid_sql :
    SearchExec [.inList "col" []] = .ok { source := "col IN ()", args := [] } ∧
    SearchExec [.notIn "col" []] = .ok { source := "col NOT IN ()", args := [] } := by
  constructor <;> decide

/-- Claim C4 (amended): for an `In` or `NotIn` leaf whose operand
sequence has length zero, the compiler deterministically and silently
emits `<col> IN ()` (resp. `<col> NOT IN ()`) with an empty argument
list; the empty sequence is not rejected before or at the compiler and
no always-false/true fragment is substituted. -/
theorem empty_in_render (col : String) :
    SearchExec [.inList col []] = .ok { source := col ++ " IN ()", args := [] } ∧
    SearchExec [.notIn col []] = .ok { source := col ++ " NOT IN ()", args := [] } := by
  have e1 : (" IN (" : String) ++ (questionMarks 0 ++ ")") = " IN ()" := by decide
  have e2 : (" NOT IN (" : String) ++ (questionMarks 0 ++ ")") = " NOT IN ()" := by decide
  constructor <;> simp [SearchExec, searchLoop, String.append_assoc, e1, e2]

/-- Claim C5 counterexample: on a SearchList with zero nodes the
compiler does not return an empty fragment — `return stack[0]` on the
empty evaluation stack is an index-out-of-range panic. -/
theorem searchExec_empty_panics :
    SearchExec ([] : SearchList) = .error .indexOutOfRange := by decide

/-- Claim C5 (amended): `SearchExec` applied to an empty SearchList
fails with an index-out-of-range panic rather than returning an empty
fragment; however `ConditionExec` only invokes the compiler when the
search list is non-empty, so with an empty search it emits no WHERE
clause and no arguments, and with all other clause inputs absent it
returns the empty fragment. -/
theorem conditionExec_empty_search :
    (∀ (limit offset : Int) (orderBy groupBy : List String),
      ConditionExec [] limit offset orderBy groupBy =
        .ok { source :=
                (if limit ≠ 0 then " LIMIT " ++ toString limit else "")
                ++ (if offset ≠ 0 then " OFFSET " ++ toString offset else "")
                ++ (if orderBy.length > 0 then
                      " ORDER BY " ++ String.intercalate "," orderBy else "")
                ++ (if groupBy.length > 0 then
                      " GROUP BY " ++ String.intercalate "," groupBy else ""),
              args := [] })
    ∧ ConditionExec [] 0 0 [] [] = .ok ExecValue.empty
    ∧ SearchExec ([] : SearchList) = .error .indexOutOfRange := by
  refine ⟨fun limit offset orderBy groupBy => ?_, by decide, by decide⟩
  simp only [ConditionExec, List.length_nil, gt_iff_lt, Nat.lt_irrefl, if_false]
  split_ifs <;>
    simp_all [ExecValue.append, ExecValue.empty, String.append_assoc]

/-- Claim C6: `ConditionExec` appends its clauses in the fixed order
WHERE → LIMIT → OFFSET → ORDER BY → GROUP BY, each present exactly when
its input is non-empty (non-zero for limit/offset), and the final
argument list is the WHERE fragment's arguments unchanged (empty when
the search is empty, in which case `w` is the empty fragment). -/
theorem conditionExec_clause_order (search : SearchList) (limit offset : Int)
    (orderBy groupBy : List String) (w : ExecValue)
    (h : if search.length > 0 then SearchExec search = .ok w else w = ExecValue.empty) :
    ConditionExec search limit offset orderBy groupBy =
      .ok { source :=
              (if search.length > 0 then " WHERE " ++ w.source else "")
              ++ (if limit ≠ 0 then " LIMIT " ++ toString limit else "")
              ++ (if offset ≠ 0 then " OFFSET " ++ toString offset else "")
              ++ (if orderBy.length > 0 then
                    " ORDER BY " ++ String.intercalate "," orderBy else "")
              ++ (if groupBy.length > 0 then
                    " GROUP BY " ++ String.intercalate "," groupBy else ""),
            args := w.args } := by
  simp only [ConditionExec]
  split_ifs at h ⊢ <;>
    simp_all [ExecValue.append, ExecValue.empty, String.append_assoc]

/-- Claim C6 witness: a one-leaf search with limit 2, offset 3, one
order-by and one group-by column produces the clauses in WHERE → LIMIT →
OFFSET → ORDER BY → GROUP BY order with the WHERE arguments unchanged. -/
theorem conditionExec_clause_order_witness :
    SearchExec [.equal "a" 1] = .ok { source := "a = ?", args := [1] } ∧
    ConditionExec [.equal "a" 1] 2 3 ["n"] ["g"] =
      .ok { source := " WHERE a = ? LIMIT 2 OFFSET 3 ORDER BY n GROUP BY g",
            args := [1] } := by
  have h := conditionExec_clause_order [.equal "a" 1] 2 3 ["n"] ["g"]
    { source := "a = ?", args := [1] } (by decide)
  exact ⟨by decide, by rw [h]; decide⟩

/-- Claim C7: `CreateTable` returns a statement list whose first
statement is a single CREATE TABLE containing every column definition
(auto-increment fields rendered with the PostgreSQL SERIAL form,
non-auto-increment fields with their SQL type), then a PRIMARY KEY
clause listing the primary columns in declared order, then one FOREIGN
KEY clause per declared relation; all subsequent statements are separate
argument-free index statements, every plain CREATE INDEX statement
before every CREATE UNIQUE INDEX statement. -/
theorem createTable_shape (m : Model) (foreign : List (String × ForeignKey)) :
    CreateTable m foreign =
      { source := "CREATE TABLE \"" ++ m.name ++ "\" (" ++ String.intercalate ","
          (m.sqlFields.map fieldDef
            ++ ["PRIMARY KEY(" ++
                  String.intercalate "," (m.primary.map SqlField.column) ++ ")"]
            ++ foreign.map (foreignDef m)) ++ ")",
        args := [] }
      :: (m.indexMap.map (fun kv => { source := indexDef m kv, args := [] })
          ++ m.uniqueIndexMap.map (fun kv => { source := uniqueIndexDef m kv, args := [] }))
    ∧ (foreign.map (foreignDef m)).length = foreign.length
    ∧ (∀ fl : SqlField, fl.autoIncrement = true → fl.attrs = [] →
        fieldDef fl = fl.column ++ " SERIAL")
    ∧ (∀ fl : SqlField, fl.autoIncrement = false → fl.attrs = [] →
        fieldDef fl = fl.column ++ " " ++ fl.sqlType) := by
  refine ⟨?_, List.length_map _ _, ?_, ?_⟩
  · simp [CreateTable, List.map_map, Function.comp_def]
  · intro fl h1 h2; simp [fieldDef, h1, h2]
  · intro fl h1 h2; simp [fieldDef, h1, h2]

/-- Claim C7 witness: a two-field model (auto-increment primary `id`,
plain `name` with a NULL attribute), one foreign key, one plain index
and one unique index produce the CREATE TABLE statement followed by the
plain index then the unique index. -/
theorem createTable_shape_witness :
    (SqlField.autoIncrement ⟨"ID", "id", "BIGINT", true, []⟩ = true ∧
      SqlField.attrs ⟨"ID", "id", "BIGINT", true, []⟩ = []) ∧
    CreateTable
        ⟨"user",
          [⟨"ID", "id", "BIGINT", true, []⟩, ⟨"Name", "name", "VARCHAR(255)", false, []⟩],
          [⟨"ID", "id", "BIGINT", true, []⟩],
          [("idx_user_name", [⟨"Name", "name", "VARCHAR(255)", false, []⟩])],
          [("udx_user_name", [⟨"Name", "name", "VARCHAR(255)", false, []⟩])]⟩
        [("Name", ⟨"other", "oid"⟩)] =
      [{ source := "CREATE TABLE \"user\" (id SERIAL,name VARCHAR(255)," ++
            "PRIMARY KEY(id),FOREIGN KEY (name) REFERENCES \"other\"(oid))", args := [] },
       { source := "CREATE INDEX idx_user_name ON \"user\"(name)", args := [] },
       { source := "CREATE UNIQUE INDEX udx_user_name ON \"user\"(name)", args := [] }] := by
  have h := createTable_shape
    ⟨"user",
      [⟨"ID", "id", "BIGINT", true, []⟩, ⟨"Name", "name", "VARCHAR(255)", false, []⟩],
      [⟨"ID", "id", "BIGINT", true, []⟩],
      [("idx_user_name", [⟨"Name", "name", "VARCHAR(255)", false, []⟩])],
      [("udx_user_name", [⟨"Name", "name", "VARCHAR(255)", false, []⟩])]⟩
    [("Name", ⟨"other", "oid"⟩)]
  exact ⟨⟨rfl, rfl⟩, by rw [h.1]; decide⟩

/-- Claim C8: `ReplaceExec` synthesizes the upsert as the plain insert of
`insertExec` followed by an `ON CONFLICT(<primary columns>) DO UPDATE
SET` clause that contributes no additional arguments, and `InsertExec`
is that same plain insert followed by the (possibly empty) RETURNING
clause — so the insert branch of the upsert has exactly the SQL text and
argument ordering of the INSERT produced by `InsertExec`. -/
theorem replaceExec_insert_branch (m : Model) (cv : List ColumnValue) :
    ReplaceExec m cv = (insertExec m cv).append
        (" ON CONFLICT(" ++ String.intercalate "," (m.primary.map SqlField.column)
          ++ ") DO UPDATE SET "
          ++ String.intercalate "," (cv.map (fun r => r.column ++ " = Excluded." ++ r.column)))
        []
    ∧ (ReplaceExec m cv).args = (insertExec m cv).args
    ∧ (InsertExec m cv).args = (insertExec m cv).args
    ∧ InsertExec m cv = (insertExec m cv).append
        (if m.primary.length == 1 && m.GetOnePrimary.autoIncrement then
          " RETURNING " ++ m.GetOnePrimary.column
         else "") [] := by
  have hempty : ∀ e : ExecValue, e.append "" [] = e := by
    intro e; simp [ExecValue.append]
  refine ⟨rfl, by simp [ReplaceExec, ExecValue.append], ?_, ?_⟩
  · by_cases hc : (m.primary.length == 1 && m.GetOnePrimary.autoIncrement) = true <;>
      simp [InsertExec, hc, ExecValue.append]
  · by_cases hc : (m.primary.length == 1 && m.GetOnePrimary.autoIncrement) = true <;>
      simp [InsertExec, hc, hempty]

/-- Claim C9: for a model whose single primary key is auto-increment,
`InsertExec` produces a positional-placeholder INSERT with one `?` per
supplied column value and the values as arguments in column order,
followed by a `RETURNING <primary column>` clause that retrieves the
generated key. -/
theorem insertExec_returning (m : Model) (cv : List ColumnValue) (p : SqlField)
    (h1 : m.primary = [p]) (h2 : p.autoIncrement = true) :
    InsertExec m cv =
      { source := "INSERT INTO \"" ++ m.name ++ "\"("
            ++ String.intercalate "," (cv.map ColumnValue.column)
            ++ ") VALUES("
            ++ String.intercalate "," (List.replicate cv.length "?")
            ++ ")" ++ " RETURNING " ++ p.column,
        args := cv.map ColumnValue.value } := by
  have hone : m.GetOnePrimary = p := by simp [Model.GetOnePrimary, h1]
  have hr : (")" : String) ++ (" RETURNING " ++ p.column) = ") RETURNING " ++ p.column := by
    rw [← String.append_assoc]
    exact congrArg (· ++ p.column) (by decide)
  simp [InsertExec, insertExec, hone, h1, h2, ExecValue.append, ExecValue.empty,
    String.append_assoc, List.map_const', hr]

/-- Claim C9 witness: a model with the single auto-increment primary key
`id` and two column values compiles to an INSERT with two placeholders,
arguments in column order, and `RETURNING id`. -/
theorem insertExec_returning_witness :
    Model.primary ⟨"user", [], [⟨"ID", "id", "BIGINT", true, []⟩], [], []⟩ =
        [⟨"ID", "id", "BIGINT", true, []⟩] ∧
    SqlField.autoIncrement ⟨"ID", "id", "BIGINT", true, []⟩ = true ∧
    InsertExec ⟨"user", [], [⟨"ID", "id", "BIGINT", true, []⟩], [], []⟩
        [⟨"a", 5⟩, ⟨"b", 7⟩] =
      { source := "INSERT INTO \"user\"(a,b) VALUES(?,?) RETURNING id",
        args := [5, 7] } := by
  have h := insertExec_returning ⟨"user", [], [⟨"ID", "id", "BIGINT", true, []⟩], [], []⟩
    [⟨"a", 5⟩, ⟨"b", 7⟩] ⟨"ID", "id", "BIGINT", true, []⟩ rfl rfl
  exact ⟨rfl, rfl, by rw [h]; decide⟩

/-- Claim C10: when the scan of the INSERT … RETURNING row fails with
`sql.ErrNoRows`, `InsertExecutor` returns a nil top-level error and
stores the failure in the result, where `LastInsertId` surfaces it; any
other scan error becomes the top-level error with nothing stored. -/
theorem insertExecutor_noRows_routing :
    (InsertExecutor (.error .noRows)).2 = none
    ∧ ((InsertExecutor (.error .noRows)).1).LastInsertId = (0, some .noRows)
    ∧ (∀ e : ScanErr, e ≠ .noRows →
        InsertExecutor (.error e) = ({ ID := 0, Err := none }, some e)
          ∧ ((InsertExecutor (.error e)).1).LastInsertId = (0, none)) := by
  refine ⟨rfl, rfl, fun e he => ?_⟩
  simp [InsertExecutor, RawResult.LastInsertId, he]

/-- Claim C10 witness: a scan error other than `sql.ErrNoRows` is
returned as the top-level error and `LastInsertId` reports no stored
error. -/
theorem insertExecutor_noRows_routing_witness :
    ScanErr.other "boom" ≠ ScanErr.noRows ∧
    InsertExecutor (.error (.other "boom")) = ({ ID := 0, Err := none }, some (.other "boom")) :=
  ⟨by decide, (insertExecutor_noRows_routing.2.2 (.other "boom") (by decide)).1⟩
